import Mathlib

/-!
Shallow embedding of the Box Folders manager (`src/managers/folders.ts`).

Each public method of the `Folders` class is modelled as a pure function
computing the outbound HTTP request(s) it issues, together with any
caller-visible effects: the post-call contents of a caller-supplied options
object (the source mutates some of them in place), the callback actually
used (legacy calling conventions), and the resolved value or rejection of
the returned promise where the method itself inspects the response.
JavaScript objects are insertion-ordered association lists; JavaScript
truthiness, property access, assignment and the delete operator are
modelled explicitly.
-/

namespace BoxFolders

/-- JavaScript-like values as they flow through the folder manager: JSON data
plus `undefined` for the undefined value and `callable` for function arguments
(identified by an index; needed for the legacy calling conventions). -/
inductive Value where
  | undefined : Value
  | null : Value
  | bool : Bool → Value
  | num : Int → Value
  | str : String → Value
  | arr : List Value → Value
  | obj : List (String × Value) → Value
  | callable : Nat → Value
deriving Repr

/-- JavaScript object contents: an insertion-ordered association list. -/
abbrev Obj := List (String × Value)

/-- JavaScript truthiness of a value. -/
def Value.truthy : Value → Bool
  | .undefined => false
  | .null => false
  | .bool b => b
  | .num n => n != 0
  | .str s => s != ""
  | .arr _ => true
  | .obj _ => true
  | .callable _ => true

/-- Property read on an object: first binding of the key, `undefined` when
absent (JavaScript returns undefined for a missing property). -/
def getField : Obj → String → Value
  | [], _ => .undefined
  | (k, v) :: rest, key => if k = key then v else getField rest key

/-- Property assignment on an object: replace the value in place when the
key exists (keeping its position), append the binding otherwise. -/
def setField : Obj → String → Value → Obj
  | [], key, v => [(key, v)]
  | (k, w) :: rest, key, v =>
      if k = key then (k, v) :: rest else (k, w) :: setField rest key v

/-- The JavaScript `delete` operator on an object key. -/
def deleteField : Obj → String → Obj
  | [], _ => []
  | (k, w) :: rest, key =>
      if k = key then deleteField rest key else (k, w) :: deleteField rest key

/-- Property read through a `Value` (undefined on non-objects). -/
def Value.get : Value → String → Value
  | .obj o, key => getField o key
  | _, _ => .undefined

/-- `Object.assign`: copy the bindings of `source` onto `target` in order. -/
def objAssign (target source : Obj) : Obj :=
  source.foldl (fun acc kv => setField acc kv.1 kv.2) target

/-- The JavaScript `||` operator. -/
def jsOr (a b : Value) : Value := if a.truthy then a else b

/-- Strict equality `===` between a value and a string literal. -/
def strictEqStr : Value → String → Bool
  | .str t, s => t == s
  | _, _ => false

/-- One outbound HTTP request: method, the segments handed to `urlPath`, and
the `params` structure (query string, body, headers); `undefined` models a field
the source never sets. -/
structure Request where
  method : String
  path : List String
  qs : Value := .undefined
  body : Value := .undefined
  headers : Value := .undefined
deriving Repr

def BASE_PATH : String := "/folders"

def WATERMARK_SUBRESOURCE : String := "/watermark"

/-- The options-or-callback argument slot used by `copy` and
`deletePermanently`: absent, a function (legacy calling convention), or an
options object. -/
inductive OptionsArg where
  | missing : OptionsArg
  | callable : Nat → OptionsArg
  | obj : Obj → OptionsArg
deriving Repr

/-- An HTTP-layer response as seen by `getWatermark`. -/
structure Response where
  statusCode : Int
  body : Value
deriving Repr

/-- A rejection as observed by a caller of `getWatermark`: either the
structured error built by `errors.buildUnexpectedResponseError`, or the raw
response object itself (which the source never throws). -/
inductive RejectedWith where
  | unexpectedResponseError : Response → RejectedWith
  | rawResponse : Response → RejectedWith
deriving Repr

/-- An error produced by the transport or default response handler for a
failed call; `statusCode` is `none` for errors carrying no HTTP status. -/
structure ApiError where
  statusCode : Option Int
  payload : Value
deriving Repr

/-- Outcome of one wrapped API call: resolved value or error. -/
inductive Outcome where
  | ok : Value → Outcome
  | err : ApiError → Outcome
deriving Repr

/-- `Folders.get`: GET /folders/:folderID with the options forwarded as the
query string. -/
def Folders.get (folderID : String) (options : Option Obj) : Request :=
  { method := "GET", path := [BASE_PATH, folderID],
    qs := match options with | some o => .obj o | none => .undefined }

/-- `Folders.update`: PUT /folders/:folderID; a truthy `etag` in the updates
is moved out of the body into an If-Match header (the body aliases the
updates object, which the source mutates in place). -/
def Folders.update (folderID : String) (updates : Obj) : Request :=
  if (getField updates "etag").truthy then
    { method := "PUT", path := [BASE_PATH, folderID],
      body := .obj (deleteField updates "etag"),
      headers := .obj [("If-Match", getField updates "etag")] }
  else
    { method := "PUT", path := [BASE_PATH, folderID], body := .obj updates }

/-- `Folders.delete`: DELETE /folders/:folderID with the options forwarded
as the query string; returns the request together with the post-call
contents of the caller-supplied options object (mutated in place when a truthy
etag is stripped). -/
def Folders.delete (folderID : String) (options : Option Obj) :
    Request × Option Obj :=
  match options with
  | none => ({ method := "DELETE", path := [BASE_PATH, folderID] }, none)
  | some o =>
    if (getField o "etag").truthy then
      ({ method := "DELETE", path := [BASE_PATH, folderID],
         qs := .obj (deleteField o "etag"),
         headers := .obj [("If-Match", getField o "etag")] },
       some (deleteField o "etag"))
    else
      ({ method := "DELETE", path := [BASE_PATH, folderID], qs := .obj o },
       some o)

/-- `Folders.copy`: POST /folders/:folderID/copy with the parent injected
into the options object in place; a callable in the options slot becomes
the callback and the options reset to empty. Returns the request, the
post-call contents of the options object, and the callback used. -/
def Folders.copy (folderID newParentID : String) (options : OptionsArg)
    (callback : Option Nat) : Request × Obj × Option Nat :=
  let pair : Obj × Option Nat :=
    match options with
    | .callable c => ([], some c)
    | .missing => ([], callback)
    | .obj o => (o, callback)
  let opts := setField pair.1 "parent" (.obj [("id", .str newParentID)])
  ({ method := "POST", path := [BASE_PATH, folderID, "/copy"],
     body := .obj opts },
   opts, pair.2)

/-- `Folders.deletePermanently`: DELETE /folders/:folderID/trash; a callable
in the options slot becomes the callback; a truthy etag is copied into an
If-Match header; the options are never mutated and never forwarded as query
or body. Returns the request, the post-call options argument, and the
callback used. -/
def Folders.deletePermanently (folderID : String) (options : OptionsArg)
    (callback : Option Nat) : Request × OptionsArg × Option Nat :=
  match options with
  | .callable c =>
      ({ method := "DELETE", path := [BASE_PATH, folderID, "/trash"] },
       .callable c, some c)
  | .missing =>
      ({ method := "DELETE", path := [BASE_PATH, folderID, "/trash"] },
       .missing, callback)
  | .obj o =>
      (if (getField o "etag").truthy then
        { method := "DELETE", path := [BASE_PATH, folderID, "/trash"],
          headers := .obj [("If-Match", getField o "etag")] }
      else
        { method := "DELETE", path := [BASE_PATH, folderID, "/trash"] },
       .obj o, callback)

/-- `Folders.restoreFromTrash`: POST /folders/:folderID; a truthy parent_id
is rewritten in place into a parent sub-object (assign parent, then delete
parent_id); the body aliases the options object. -/
def Folders.restoreFromTrash (folderID : String) (options : Option Obj) :
    Request × Option Obj :=
  match options with
  | none =>
      ({ method := "POST", path := [BASE_PATH, folderID], body := .obj [] },
       none)
  | some o =>
    let o2 :=
      if (getField o "parent_id").truthy then
        deleteField
          (setField o "parent" (.obj [("id", getField o "parent_id")]))
          "parent_id"
      else o
    ({ method := "POST", path := [BASE_PATH, folderID], body := .obj o2 },
     some o2)

/-- `Folders.addMetadata`: POST /folders/:folderID/metadata/:scope/:template
with the metadata mapping as the body. -/
def Folders.addMetadata (folderID scope template : String) (data : Obj) :
    Request :=
  { method := "POST",
    path := [BASE_PATH, folderID, "metadata", scope, template],
    body := .obj data }

/-- `Folders.updateMetadata`: PUT /folders/:folderID/metadata/:scope/:template
with a JSON Patch body and the json-patch content type header. -/
def Folders.updateMetadata (folderID scope template : String)
    (patch : Value) : Request :=
  { method := "PUT",
    path := [BASE_PATH, folderID, "metadata", scope, template],
    body := patch,
    headers := .obj [("Content-Type", .str "application/json-patch+json")] }

/-- The JSON Patch list `Folders.setMetadata` builds from the metadata
mapping: one add operation per key, in the key order of the mapping. -/
def metadataPatchOps (metadata : Obj) : Value :=
  .arr ((metadata.map Prod.fst).map (fun key =>
    .obj [("op", .str "add"), ("path", .str ("/" ++ key)),
          ("value", getField metadata key)]))

/-- `Folders.setMetadata`: try `addMetadata`; on a failure whose status code
is 409 fall back to exactly one `updateMetadata` call; any other failure
propagates unchanged. The outcome each underlying call would have is
supplied as an argument; returns the requests issued in order and the
overall outcome. -/
def Folders.setMetadata (folderID scope template : String) (metadata : Obj)
    (addOutcome updateOutcome : Outcome) : List Request × Outcome :=
  let addReq := Folders.addMetadata folderID scope template metadata
  match addOutcome with
  | .ok v => ([addReq], .ok v)
  | .err e =>
    if e.statusCode ≠ some 409 then ([addReq], .err e)
    else
      ([addReq,
        Folders.updateMetadata folderID scope template
          (metadataPatchOps metadata)],
       updateOutcome)

/-- `Folders.getWatermark`: GET /folders/:folderID/watermark; a response
with status other than 200 is turned into the unexpected-response error; a
200 response resolves to the watermark field of the body only. -/
def Folders.getWatermark (folderID : String) (options : Option Obj)
    (response : Response) : Request × Except RejectedWith Value :=
  ({ method := "GET", path := [BASE_PATH, folderID, WATERMARK_SUBRESOURCE],
     qs := match options with | some o => .obj o | none => .undefined },
   if response.statusCode ≠ 200 then
     .error (.unexpectedResponseError response)
   else
     .ok (response.body.get "watermark"))

/-- `Folders.applyWatermark`: PUT /folders/:folderID/watermark with body
watermark = { imprint: "default" } overwritten by the caller options via
`Object.assign`. -/
def Folders.applyWatermark (folderID : String) (options : Option Obj) :
    Request :=
  { method := "PUT", path := [BASE_PATH, folderID, WATERMARK_SUBRESOURCE],
    body := .obj [("watermark",
      .obj (objAssign [("imprint", .str "default")] (options.getD [])))] }

/-- The collections list `Folders.addToCollection` sends: take the fetched
collections field (empty list when falsy), normalize each entry to an
id-only object, and append the target when no id of an entry strictly equals
it; `none` models the TypeError raised when the field is truthy but not an
array. -/
def addToCollectionList (data : Value) (collectionID : String) :
    Option (List Value) :=
  match jsOr (data.get "collections") (.arr []) with
  | .arr l =>
    let collections := l.map (fun c => Value.obj [("id", c.get "id")])
    some (if collections.any (fun c => strictEqStr (c.get "id") collectionID)
          then collections
          else collections ++ [.obj [("id", .str collectionID)]])
  | _ => none

/-- `Folders.addToCollection`: fetch the folder with fields=collections,
then update the folder with the target collection appended when absent.
`data` is the folder object the fetch resolved to. -/
def Folders.addToCollection (folderID collectionID : String) (data : Value) :
    Request × Option Request :=
  (Folders.get folderID (some [("fields", .str "collections")]),
   (addToCollectionList data collectionID).map (fun l =>
     Folders.update folderID [("collections", .arr l)]))

/-- The collections list `Folders.removeFromCollection` sends: take the
fetched collections field (empty list when falsy), normalize each entry to
an id-only object, and filter out entries whose id strictly equals the
target. -/
def removeFromCollectionList (data : Value) (collectionID : String) :
    Option (List Value) :=
  match jsOr (data.get "collections") (.arr []) with
  | .arr l =>
    some ((l.map (fun c => Value.obj [("id", c.get "id")])).filter
      (fun c => !(strictEqStr (c.get "id") collectionID)))
  | _ => none

/-- `Folders.removeFromCollection`: fetch the folder with
fields=collections, then update the folder with the target collection
removed. `data` is the folder object the fetch resolved to. -/
def Folders.removeFromCollection (folderID collectionID : String)
    (data : Value) : Request × Option Request :=
  (Folders.get folderID (some [("fields", .str "collections")]),
   (removeFromCollectionList data collectionID).map (fun l =>
     Folders.update folderID [("collections", .arr l)]))

/-! Basic lemmas about the JavaScript object operations. -/

theorem getField_setField_self (o : Obj) (k : String) (v : Value) :
    getField (setField o k v) k = v := by
  induction o with
  | nil => simp [setField, getField]
  | cons kv rest ih =>
    obtain ⟨k1, w⟩ := kv
    by_cases h : k1 = k
    · subst h
      simp [setField, getField]
    · simp [setField, getField, h, ih]

theorem getField_setField_ne (o : Obj) (k k2 : String) (v : Value)
    (h : k2 ≠ k) : getField (setField o k v) k2 = getField o k2 := by
  have hs : k ≠ k2 := Ne.symm h
  induction o with
  | nil => simp [setField, getField, hs]
  | cons kv rest ih =>
    obtain ⟨k1, w⟩ := kv
    by_cases h1 : k1 = k
    · subst h1
      simp [setField, getField, hs]
    · by_cases h2 : k1 = k2
      · subst h2
        simp [setField, getField, h1]
      · simp [setField, getField, h1, h2, ih]

theorem getField_deleteField_self (o : Obj) (k : String) :
    getField (deleteField o k) k = .undefined := by
  induction o with
  | nil => simp [deleteField, getField]
  | cons kv rest ih =>
    obtain ⟨k1, w⟩ := kv
    by_cases h : k1 = k
    · simp [deleteField, getField, h, ih]
    · simp [deleteField, getField, h, ih]

theorem getField_deleteField_ne (o : Obj) (k k2 : String) (h : k2 ≠ k) :
    getField (deleteField o k) k2 = getField o k2 := by
  have hs : k ≠ k2 := Ne.symm h
  induction o with
  | nil => simp [deleteField]
  | cons kv rest ih =>
    obtain ⟨k1, w⟩ := kv
    by_cases h1 : k1 = k
    · subst h1
      simp [deleteField, getField, hs, ih]
    · simp [deleteField, getField, h1, ih]

/-! Claim theorems. -/

/-- C1: setMetadata first calls addMetadata; if that call succeeds no second
call is made and its value resolves; if it fails with status 409 exactly one
follow-up updateMetadata call is made whose body is the ordered list of
add-operation patch entries, one per key of the input metadata in input
order; if it fails with any other status no follow-up call is made and the
original error propagates unchanged. -/
theorem claim1_setMetadata_spec (folderID scope template : String)
    (metadata : Obj) (v : Value) (e : ApiError) (u : Outcome) :
    (Folders.setMetadata folderID scope template metadata (.ok v) u =
      ([Folders.addMetadata folderID scope template metadata], .ok v)) ∧
    (e.statusCode = some 409 →
      Folders.setMetadata folderID scope template metadata (.err e) u =
        ([Folders.addMetadata folderID scope template metadata,
          { method := "PUT",
            path := [BASE_PATH, folderID, "metadata", scope, template],
            body := .arr ((metadata.map Prod.fst).map (fun key =>
              .obj [("op", .str "add"), ("path", .str ("/" ++ key)),
                    ("value", getField metadata key)])),
            headers := .obj [("Content-Type",
              .str "application/json-patch+json")] }], u)) ∧
    (e.statusCode ≠ some 409 →
      Folders.setMetadata folderID scope template metadata (.err e) u =
        ([Folders.addMetadata folderID scope template metadata], .err e)) := by
  refine ⟨rfl, ?_, ?_⟩
  · intro h
    simp [Folders.setMetadata, h, Folders.updateMetadata, metadataPatchOps]
  · intro h
    simp [Folders.setMetadata, h]

/-- Witness for C1 at concrete inputs: a 409 failure triggers the single
patch follow-up in key order; a 500 failure propagates unchanged with no
follow-up. -/
theorem claim1_setMetadata_spec_witness :
    (Folders.setMetadata "42" "enterprise" "marketing"
        [("k1", .str "a"), ("k2", .num 2)]
        (.err ⟨some 409, .null⟩) (.ok (.str "updated")) =
      ([Folders.addMetadata "42" "enterprise" "marketing"
          [("k1", .str "a"), ("k2", .num 2)],
        { method := "PUT",
          path := ["/folders", "42", "metadata", "enterprise", "marketing"],
          body := .arr
            [.obj [("op", .str "add"), ("path", .str "/k1"),
                   ("value", .str "a")],
             .obj [("op", .str "add"), ("path", .str "/k2"),
                   ("value", .num 2)]],
          headers := .obj [("Content-Type",
            .str "application/json-patch+json")] }],
       .ok (.str "updated"))) ∧
    (Folders.setMetadata "42" "enterprise" "marketing" [("k1", .str "a")]
        (.err ⟨some 500, .null⟩) (.ok .null) =
      ([Folders.addMetadata "42" "enterprise" "marketing" [("k1", .str "a")]],
       .err ⟨some 500, .null⟩)) := by
  constructor
  · exact (claim1_setMetadata_spec "42" "enterprise" "marketing"
      [("k1", .str "a"), ("k2", .num 2)] .null ⟨some 409, .null⟩
      (.ok (.str "updated"))).2.1 rfl
  · exact (claim1_setMetadata_spec "42" "enterprise" "marketing"
      [("k1", .str "a")] .null ⟨some 500, .null⟩ (.ok .null)).2.2 (by decide)

/-- C2: getWatermark resolves, on a 200 response, to only the nested
watermark field of the response body; on any other status it rejects with
the unexpected-response error built from the response, never with the raw
response. -/
theorem claim2_getWatermark_spec (folderID : String) (options : Option Obj)
    (response : Response) :
    (response.statusCode = 200 →
      (Folders.getWatermark folderID options response).2 =
        .ok (response.body.get "watermark")) ∧
    (response.statusCode ≠ 200 →
      (Folders.getWatermark folderID options response).2 =
        .error (.unexpectedResponseError response) ∧
      ∀ r : Response,
        (Folders.getWatermark folderID options response).2 ≠
          .error (.rawResponse r)) := by
  constructor
  · intro h
    simp [Folders.getWatermark, h]
  · intro h
    refine ⟨by simp [Folders.getWatermark, h], fun r => ?_⟩
    simp [Folders.getWatermark, h]

/-- Witness for C2: a 200 response with body watermark {imprint: default}
resolves to the inner object only; a 404 response rejects with the
unexpected-response error. -/
theorem claim2_getWatermark_spec_witness :
    ((Folders.getWatermark "42" none
        ⟨200, .obj [("watermark", .obj [("imprint", .str "default")])]⟩).2 =
      .ok (.obj [("imprint", .str "default")])) ∧
    ((Folders.getWatermark "42" none ⟨404, .null⟩).2 =
      .error (.unexpectedResponseError ⟨404, .null⟩)) := by
  constructor
  · exact (claim2_getWatermark_spec "42" none
      ⟨200, .obj [("watermark", .obj [("imprint", .str "default")])]⟩).1 rfl
  · exact ((claim2_getWatermark_spec "42" none ⟨404, .null⟩).2 (by decide)).1

/-- C3 counterexample: with updates containing the key etag bound to the
empty string, update sends no If-Match header at all and the serialized
body still contains the etag field, because the source tests JavaScript
truthiness of the etag value, not key presence. -/
theorem claim3_etag_counterexample :
    (Folders.update "42" [("etag", .str "")]).headers = .undefined ∧
    (Folders.update "42" [("etag", .str "")]).body.get "etag" = .str "" ∧
    (Folders.update "42" [("etag", .str "")]).headers.get "If-Match" ≠
      .str "" := by
  refine ⟨rfl, rfl, ?_⟩
  intro h
  exact Value.noConfusion h

/-- C3 (amended): for update (body) and delete (query), when the input
contains an etag key with a truthy value the outbound request carries an
If-Match header equal to that value and the serialized body or query no
longer contains an etag field; when the etag is absent or falsy, no
If-Match header is sent and the body or query is the input unchanged. -/
theorem claim3_etag_spec (folderID : String) (updates o : Obj) :
    ((getField updates "etag").truthy = true →
      (Folders.update folderID updates).headers.get "If-Match" =
        getField updates "etag" ∧
      (Folders.update folderID updates).body.get "etag" = .undefined) ∧
    ((getField updates "etag").truthy = false →
      (Folders.update folderID updates).headers = .undefined ∧
      (Folders.update folderID updates).body = .obj updates) ∧
    ((getField o "etag").truthy = true →
      ((Folders.delete folderID (some o)).1).headers.get "If-Match" =
        getField o "etag" ∧
      ((Folders.delete folderID (some o)).1).qs.get "etag" = .undefined) ∧
    ((getField o "etag").truthy = false →
      ((Folders.delete folderID (some o)).1).headers = .undefined ∧
      ((Folders.delete folderID (some o)).1).qs = .obj o) := by
  refine ⟨fun h => ?_, fun h => ?_, fun h => ?_, fun h => ?_⟩ <;>
    simp [Folders.update, Folders.delete, h, Value.get, getField,
      getField_deleteField_self]

/-- Witness for C3 (amended) at concrete inputs: a non-empty etag is moved
into the If-Match header for both update and delete; inputs without an
etag produce no header. -/
theorem claim3_etag_spec_witness :
    ((Folders.update "42" [("etag", .str "abc"), ("name", .str "n")]).headers.get
        "If-Match" = .str "abc" ∧
      (Folders.update "42"
        [("etag", .str "abc"), ("name", .str "n")]).body.get "etag" =
        .undefined) ∧
    ((Folders.update "42" [("name", .str "n")]).headers = .undefined ∧
      (Folders.update "42" [("name", .str "n")]).body =
        .obj [("name", .str "n")]) ∧
    (((Folders.delete "42" (some [("etag", .str "abc")])).1).headers.get
        "If-Match" = .str "abc" ∧
      ((Folders.delete "42" (some [("etag", .str "abc")])).1).qs.get "etag" =
        .undefined) ∧
    (((Folders.delete "42" (some [("fields", .str "name")])).1).headers =
        .undefined ∧
      ((Folders.delete "42" (some [("fields", .str "name")])).1).qs =
        .obj [("fields", .str "name")]) :=
  ⟨(claim3_etag_spec "42" [("etag", .str "abc"), ("name", .str "n")] []).1
      rfl,
   (claim3_etag_spec "42" [("name", .str "n")] []).2.1 rfl,
   (claim3_etag_spec "42" [] [("etag", .str "abc")]).2.2.1 rfl,
   (claim3_etag_spec "42" [] [("fields", .str "name")]).2.2.2 rfl⟩

/-- C4 counterexample: deletePermanently, given a caller-supplied options
object containing an etag, leaves the caller-supplied options object exactly as it
was (it is never mutated), refuting the claim that each of the three
operations leaves the caller-supplied options object changed. -/
theorem claim4_mutation_counterexample :
    (Folders.deletePermanently "42" (.obj [("etag", .str "abc")]) none).2.1 =
      .obj [("etag", .str "abc")] := rfl

/-- C4 (amended): copy injects a parent key into the caller-supplied options object
in place (preserving all other keys) and delete strips a truthy etag from
the caller-supplied options in place, so callers of those two must not assume the
object unchanged; deletePermanently never mutates its options argument. -/
theorem claim4_mutation_spec (folderID newParentID : String) (o : Obj)
    (optArg : OptionsArg) (cb : Option Nat) :
    ((Folders.copy folderID newParentID (.obj o) cb).2.1 =
      setField o "parent" (.obj [("id", .str newParentID)]) ∧
     getField (Folders.copy folderID newParentID (.obj o) cb).2.1 "parent" =
       .obj [("id", .str newParentID)] ∧
     ∀ k, k ≠ "parent" →
       getField (Folders.copy folderID newParentID (.obj o) cb).2.1 k =
         getField o k) ∧
    ((getField o "etag").truthy = true →
      (Folders.delete folderID (some o)).2 = some (deleteField o "etag")) ∧
    ((getField o "etag").truthy = false →
      (Folders.delete folderID (some o)).2 = some o) ∧
    (Folders.deletePermanently folderID optArg cb).2.1 = optArg := by
  refine ⟨⟨rfl, ?_, ?_⟩, fun h => ?_, fun h => ?_, ?_⟩
  · exact getField_setField_self o "parent" _
  · intro k hk
    exact getField_setField_ne o "parent" k _ hk
  · simp [Folders.delete, h]
  · simp [Folders.delete, h]
  · cases optArg <;> rfl

/-- Witness for C4 (amended) at concrete inputs: copy rewrites the caller-supplied
options while keeping other keys; delete strips a truthy etag and leaves an
etag-free options object alone. -/
theorem claim4_mutation_spec_witness :
    ((Folders.copy "42" "7" (.obj [("name", .str "n")]) none).2.1 =
      [("name", .str "n"), ("parent", .obj [("id", .str "7")])] ∧
     getField (Folders.copy "42" "7" (.obj [("name", .str "n")]) none).2.1
       "parent" = .obj [("id", .str "7")] ∧
     getField (Folders.copy "42" "7" (.obj [("name", .str "n")]) none).2.1
       "name" = .str "n") ∧
    ((Folders.delete "42" (some [("etag", .str "abc")])).2 = some []) ∧
    ((Folders.delete "42" (some [("name", .str "n")])).2 =
      some [("name", .str "n")]) ∧
    ((Folders.deletePermanently "42" (.obj [("etag", .str "abc")]) none).2.1 =
      .obj [("etag", .str "abc")]) := by
  have h := claim4_mutation_spec "42" "7" [("name", .str "n")]
    (.obj [("etag", .str "abc")]) none
  have h2 := claim4_mutation_spec "42" "7" [("etag", .str "abc")]
    (.obj [("etag", .str "abc")]) none
  exact ⟨⟨h.1.1, h.1.2.1, h.1.2.2 "name" (by decide)⟩,
    h2.2.1 rfl, h.2.2.1 rfl, h.2.2.2⟩

/-- C5 counterexample: with options containing the key etag bound to the
empty string (a present key with a falsy value), deletePermanently sends no
If-Match header, refuting the claim as stated for every options mapping
containing an etag key; the source tests truthiness, not key presence. -/
theorem claim5_deletePermanently_counterexample :
    (Folders.deletePermanently "42" (.obj [("etag", .str "")]) none).1.headers
      = .undefined ∧
    (Folders.deletePermanently "42"
        (.obj [("etag", .str "")]) none).1.headers.get "If-Match" ≠
      .str "" := by
  refine ⟨rfl, ?_⟩
  intro h
  exact Value.noConfusion h

/-- C5 (amended): deletePermanently treats a callable options argument as
the callback with options reset to empty (issuing the identical request);
an etag key with a truthy value yields an If-Match header equal to it while
the etag is not removed from the caller-supplied options object; and the options
mapping is never forwarded as query parameters or body. -/
theorem claim5_deletePermanently_spec (folderID : String) (o : Obj)
    (c : Nat) (cb cb2 : Option Nat) (optArg : OptionsArg) :
    ((Folders.deletePermanently folderID (.callable c) cb).1 =
       (Folders.deletePermanently folderID (.obj []) cb2).1 ∧
     (Folders.deletePermanently folderID (.callable c) cb).2.2 = some c) ∧
    ((getField o "etag").truthy = true →
      (Folders.deletePermanently folderID (.obj o) cb).1.headers.get
          "If-Match" = getField o "etag" ∧
      (Folders.deletePermanently folderID (.obj o) cb).2.1 = .obj o) ∧
    ((Folders.deletePermanently folderID optArg cb).1.qs = .undefined ∧
     (Folders.deletePermanently folderID optArg cb).1.body = .undefined ∧
     (Folders.deletePermanently folderID optArg cb).1.method = "DELETE" ∧
     (Folders.deletePermanently folderID optArg cb).1.path =
       [BASE_PATH, folderID, "/trash"]) := by
  refine ⟨⟨rfl, rfl⟩, fun h => ?_, ?_⟩
  · simp [Folders.deletePermanently, h, Value.get, getField]
  · cases optArg with
    | missing => exact ⟨rfl, rfl, rfl, rfl⟩
    | callable c => exact ⟨rfl, rfl, rfl, rfl⟩
    | obj o2 =>
      by_cases h2 : (getField o2 "etag").truthy
      · simp [Folders.deletePermanently, h2]
      · simp [Folders.deletePermanently, h2]

/-- Witness for C5 (amended) at a concrete input: a non-empty etag yields
the If-Match header and the caller-supplied options keep their etag; nothing is
forwarded as query or body. -/
theorem claim5_deletePermanently_spec_witness :
    ((Folders.deletePermanently "42" (.obj [("etag", .str "abc")])
        none).1.headers.get "If-Match" = .str "abc" ∧
     (Folders.deletePermanently "42" (.obj [("etag", .str "abc")])
        none).2.1 = .obj [("etag", .str "abc")]) ∧
    ((Folders.deletePermanently "42" (.obj [("etag", .str "abc")])
        none).1.qs = .undefined ∧
     (Folders.deletePermanently "42" (.obj [("etag", .str "abc")])
        none).1.body = .undefined) := by
  have h := claim5_deletePermanently_spec "42" [("etag", .str "abc")] 0 none
    none (.obj [("etag", .str "abc")])
  exact ⟨h.2.1 rfl, h.2.2.1, h.2.2.2.1⟩

/-- C6: copy with a callable as the third argument behaves exactly as copy
with an empty options object and that callable as the callback; and for
every options mapping the POST body to /folders/:id/copy is the options
with parent = {id: newParentID} injected, all other keys preserved. -/
theorem claim6_copy_spec (folderID newParentID : String) (c : Nat)
    (cb : Option Nat) (o : Obj) :
    (Folders.copy folderID newParentID (.callable c) cb =
      Folders.copy folderID newParentID (.obj []) (some c)) ∧
    ((Folders.copy folderID newParentID (.obj o) cb).1.body =
      .obj (setField o "parent" (.obj [("id", .str newParentID)]))) ∧
    ((Folders.copy folderID newParentID (.obj o) cb).1.body.get "parent" =
      .obj [("id", .str newParentID)]) ∧
    (∀ k, k ≠ "parent" →
      (Folders.copy folderID newParentID (.obj o) cb).1.body.get k =
        getField o k) ∧
    ((Folders.copy folderID newParentID (.obj o) cb).1.method = "POST" ∧
     (Folders.copy folderID newParentID (.obj o) cb).1.path =
       [BASE_PATH, folderID, "/copy"]) := by
  refine ⟨rfl, rfl, ?_, ?_, rfl, rfl⟩
  · exact getField_setField_self o "parent" _
  · intro k hk
    exact getField_setField_ne o "parent" k _ hk

/-- Witness for C6 at concrete inputs: the legacy form equals the explicit
form, and the body carries the injected parent next to the original keys. -/
theorem claim6_copy_spec_witness :
    (Folders.copy "42" "7" (.callable 3) none =
      Folders.copy "42" "7" (.obj []) (some 3)) ∧
    ((Folders.copy "42" "7" (.obj [("name", .str "n")]) none).1.body.get
        "parent" = .obj [("id", .str "7")]) ∧
    ((Folders.copy "42" "7" (.obj [("name", .str "n")]) none).1.body.get
        "name" = .str "n") := by
  have h := claim6_copy_spec "42" "7" 3 none [("name", .str "n")]
  exact ⟨h.1, h.2.2.1, h.2.2.2.1 "name" (by decide)⟩

/-- C7: with a fetched collections field of [{id:1},{id:2}] (and each step
first fetching the folder with fields=collections), addToCollection with
target 3 updates with [{id:1},{id:2},{id:3}]; addToCollection with target 1
adds no duplicate; removeFromCollection with target 2 updates with
[{id:1}]. -/
theorem claim7_collections_examples (folderID : String) :
    (Folders.addToCollection folderID "3"
        (.obj [("collections",
          .arr [.obj [("id", .str "1")], .obj [("id", .str "2")]])]) =
      (Folders.get folderID (some [("fields", .str "collections")]),
       some (Folders.update folderID [("collections",
         .arr [.obj [("id", .str "1")], .obj [("id", .str "2")],
               .obj [("id", .str "3")]])]))) ∧
    (Folders.addToCollection folderID "1"
        (.obj [("collections",
          .arr [.obj [("id", .str "1")], .obj [("id", .str "2")]])]) =
      (Folders.get folderID (some [("fields", .str "collections")]),
       some (Folders.update folderID [("collections",
         .arr [.obj [("id", .str "1")], .obj [("id", .str "2")]])]))) ∧
    (Folders.removeFromCollection folderID "2"
        (.obj [("collections",
          .arr [.obj [("id", .str "1")], .obj [("id", .str "2")]])]) =
      (Folders.get folderID (some [("fields", .str "collections")]),
       some (Folders.update folderID [("collections",
         .arr [.obj [("id", .str "1")]])]))) :=
  ⟨rfl, rfl, rfl⟩

/-- C8: applyWatermark sends a PUT body whose watermark is the default
imprint merged with the caller options, caller keys overwriting the
default: any imprint option v yields watermark {imprint: v}; the imprint
custom option yields {imprint: custom}; no options yields
{imprint: default}. -/
theorem claim8_applyWatermark_spec (folderID : String) (v : Value) :
    ((Folders.applyWatermark folderID (some [("imprint", v)])).body =
      .obj [("watermark", .obj [("imprint", v)])]) ∧
    ((Folders.applyWatermark folderID
        (some [("imprint", .str "custom")])).body =
      .obj [("watermark", .obj [("imprint", .str "custom")])]) ∧
    ((Folders.applyWatermark folderID none).body =
      .obj [("watermark", .obj [("imprint", .str "default")])]) ∧
    (∀ options, (Folders.applyWatermark folderID options).body =
      .obj [("watermark",
        .obj (objAssign [("imprint", .str "default")] (options.getD [])))]) ∧
    ((Folders.applyWatermark folderID none).method = "PUT" ∧
     (Folders.applyWatermark folderID none).path =
       [BASE_PATH, folderID, WATERMARK_SUBRESOURCE]) := by
  refine ⟨?_, rfl, rfl, fun _ => rfl, rfl, rfl⟩
  simp [Folders.applyWatermark, objAssign, setField]

/-- C9 counterexample: with options containing the key parent_id bound to
the empty string (a present key with a falsy value), restoreFromTrash sends
a body that still contains parent_id and has no parent sub-object, because
the source tests truthiness of parent_id, not key presence. -/
theorem claim9_restoreFromTrash_counterexample :
    ((Folders.restoreFromTrash "42" (some [("parent_id", .str "")])).1).body
      = .obj [("parent_id", .str "")] ∧
    ((Folders.restoreFromTrash "42"
        (some [("parent_id", .str "")])).1).body.get "parent" = .undefined ∧
    ((Folders.restoreFromTrash "42"
        (some [("parent_id", .str "")])).1).body.get "parent_id" ≠
      .undefined := by
  refine ⟨rfl, rfl, ?_⟩
  intro h
  exact Value.noConfusion h

/-- C9 (amended): restoreFromTrash sends a POST body equal to the options
mapping with a truthy parent_id rewritten into a parent = {id} sub-object
(parent_id removed, parent set, all other keys preserved); with no options
the body is the empty object; with parent_id absent or falsy the options
are forwarded unchanged. -/
theorem claim9_restoreFromTrash_spec (folderID : String) (o : Obj) :
    ((getField o "parent_id").truthy = true →
      ((Folders.restoreFromTrash folderID (some o)).1).body.get "parent" =
        .obj [("id", getField o "parent_id")] ∧
      ((Folders.restoreFromTrash folderID (some o)).1).body.get "parent_id" =
        .undefined ∧
      ∀ k, k ≠ "parent" → k ≠ "parent_id" →
        ((Folders.restoreFromTrash folderID (some o)).1).body.get k =
          getField o k) ∧
    ((getField o "parent_id").truthy = false →
      ((Folders.restoreFromTrash folderID (some o)).1).body = .obj o) ∧
    (((Folders.restoreFromTrash folderID none).1).body = .obj []) := by
  refine ⟨fun h => ?_, fun h => ?_, rfl⟩
  · have e1 : ((Folders.restoreFromTrash folderID (some o)).1).body =
        .obj (deleteField
          (setField o "parent" (.obj [("id", getField o "parent_id")]))
          "parent_id") := by
      rw [Folders.restoreFromTrash]
      simp [h]
    refine ⟨?_, ?_, ?_⟩
    · rw [e1]
      show getField _ "parent" = _
      rw [getField_deleteField_ne _ _ _ (by decide), getField_setField_self]
    · rw [e1]
      show getField _ "parent_id" = _
      exact getField_deleteField_self _ _
    · intro k hk1 hk2
      rw [e1]
      show getField _ k = _
      rw [getField_deleteField_ne _ _ _ hk2, getField_setField_ne _ _ _ _ hk1]
  · rw [Folders.restoreFromTrash]
    simp [h]

/-- Witness for C9 (amended): with options {parent_id: 5, name: x} the body
has parent = {id: 5}, keeps name = x and has no parent_id; options without
a parent_id pass through unchanged. -/
theorem claim9_restoreFromTrash_spec_witness :
    (((Folders.restoreFromTrash "42"
        (some [("parent_id", .str "5"), ("name", .str "x")])).1).body.get
        "parent" = .obj [("id", .str "5")] ∧
      ((Folders.restoreFromTrash "42"
        (some [("parent_id", .str "5"), ("name", .str "x")])).1).body.get
        "parent_id" = .undefined ∧
      ((Folders.restoreFromTrash "42"
        (some [("parent_id", .str "5"), ("name", .str "x")])).1).body.get
        "name" = .str "x") ∧
    (((Folders.restoreFromTrash "42"
        (some [("name", .str "x")])).1).body = .obj [("name", .str "x")]) := by
  have h := claim9_restoreFromTrash_spec "42"
    [("parent_id", .str "5"), ("name", .str "x")]
  have h2 := claim9_restoreFromTrash_spec "42" [("name", .str "x")]
  have h3 := h.1 rfl
  exact ⟨⟨h3.1, h3.2.1, h3.2.2 "name" (by decide) (by decide)⟩, h2.2.1 rfl⟩

/-- C10: when the fetched folder has no collections field, or a null one,
both operations treat it as the empty list: addToCollection updates with
the single-element list [{id: collectionID}] and removeFromCollection
updates with the empty list, instead of failing. -/
theorem claim10_missing_collections_spec (folderID collectionID : String)
    (data : Value)
    (h : data.get "collections" = .undefined ∨ data.get "collections" = .null) :
    Folders.addToCollection folderID collectionID data =
      (Folders.get folderID (some [("fields", .str "collections")]),
       some (Folders.update folderID [("collections",
         .arr [.obj [("id", .str collectionID)]])])) ∧
    Folders.removeFromCollection folderID collectionID data =
      (Folders.get folderID (some [("fields", .str "collections")]),
       some (Folders.update folderID [("collections", .arr [])])) := by
  have hl : jsOr (data.get "collections") (.arr []) = .arr [] := by
    rcases h with h | h <;> simp [jsOr, h, Value.truthy]
  constructor
  · simp [Folders.addToCollection, addToCollectionList, hl]
  · simp [Folders.removeFromCollection, removeFromCollectionList, hl]

/-- Witness for C10: a folder object with no collections field at all
yields the singleton list for add and the empty list for remove. -/
theorem claim10_missing_collections_spec_witness :
    Folders.addToCollection "42" "9" (.obj [("id", .str "42")]) =
      (Folders.get "42" (some [("fields", .str "collections")]),
       some (Folders.update "42" [("collections",
         .arr [.obj [("id", .str "9")]])])) ∧
    Folders.removeFromCollection "42" "9" (.obj [("id", .str "42")]) =
      (Folders.get "42" (some [("fields", .str "collections")]),
       some (Folders.update "42" [("collections", .arr [])])) :=
  claim10_missing_collections_spec "42" "9" (.obj [("id", .str "42")])
    (Or.inl rfl)

end BoxFolders
